import Mathlib

/-!
Verification development for the `node-aws-swapi` serverless API.

The TypeScript sources are shallowly embedded as pure Lean functions:
asynchronous store and HTTP effects become explicit oracle parameters
(the outcome the external call would have produced), JavaScript numbers
become `Int`/`Nat`, nullable/undefined values become `Option`, and the
handlers return their HTTP response together with an effect trace
(which upstream fetches ran, what was cached, how many history rows
were appended).
-/

/-- JS `a || b` for strings: the empty string is falsy. -/
def jsOrStr (a b : String) : String :=
  if a = "" then b else a

/-- JS `a?.x || b` for an optional string: `undefined` and `""` are falsy. -/
def jsOrOptStr (a : Option String) (b : String) : String :=
  match a with
  | none => b
  | some s => jsOrStr s b

/-- JS `String.prototype.toLowerCase` (ASCII). -/
def jsToLower (s : String) : String :=
  ⟨s.data.map Char.toLower⟩

/-- Whether the first character list is a prefix of the second. -/
def listIsPrefixCh : List Char → List Char → Bool
  | [], _ => true
  | _ :: _, [] => false
  | p :: ps, c :: cs => p == c && listIsPrefixCh ps cs

/-- Whether `p` occurs as a contiguous sublist. -/
def listContainsSub (p : List Char) : List Char → Bool
  | [] => p.isEmpty
  | c :: cs => listIsPrefixCh p (c :: cs) || listContainsSub p cs

/-- JS `String.prototype.includes`. -/
def includesStr (s pat : String) : Bool :=
  listContainsSub pat.data s.data

/-- Digits-prefix accumulator for `parseIntJS` (radix 10). -/
def digitsToNat (ds : List Char) : Nat :=
  ds.foldl (fun acc c => acc * 10 + (c.toNat - 48)) 0

/-- ECMA-262 hexadecimal digit (`0-9a-fA-F`). -/
def isHexDigitJS (c : Char) : Bool :=
  c.isDigit || ('a' ≤ c && c ≤ 'f') || ('A' ≤ c && c ≤ 'F')

/-- Hex-digits accumulator for `parseIntJS` (radix 16). -/
def hexDigitsToNat (ds : List Char) : Nat :=
  ds.foldl
    (fun acc c =>
      acc * 16 +
        (if c.isDigit then c.toNat - 48
         else if 'a' ≤ c && c ≤ 'f' then c.toNat - 87
         else c.toNat - 55))
    0

/-- Decimal tail of `parseIntJS`: the longest prefix of decimal digits;
`none` models `NaN` (no digits). -/
def parseDecDigits (sign : Int) (cs : List Char) : Option Int :=
  let ds := cs.takeWhile Char.isDigit
  if ds.isEmpty then none
  else some (sign * (digitsToNat ds : Int))

/-- JS `parseInt(s)` with no radix argument (ECMA-262): skip leading
whitespace, optional sign, then — if the remainder starts with `0x` or
`0X` — the longest prefix of hexadecimal digits at radix 16, otherwise
the longest prefix of decimal digits; `none` models `NaN` (no digits). -/
def parseIntJS (s : String) : Option Int :=
  let cs := s.toList.dropWhile Char.isWhitespace
  let signRest : Int × List Char :=
    match cs with
    | '-' :: r => (-1, r)
    | '+' :: r => (1, r)
    | r => (1, r)
  match signRest.2 with
  | '0' :: c :: tl =>
      if c = 'x' ∨ c = 'X' then
        let ds := tl.takeWhile isHexDigitJS
        if ds.isEmpty then none
        else some (signRest.1 * (hexDigitsToNat ds : Int))
      else parseDecDigits signRest.1 ('0' :: c :: tl)
  | r => parseDecDigits signRest.1 r

/- ## Cache Store (src/services/cacheService.ts) -/

/-- A physical row of the DynamoDB cache table
(`Item: { cacheKey, value, ttl, createdAt }`); `ttl` is the absolute
expiry timestamp in epoch seconds written by `CacheService.set`. -/
structure CacheItem (α : Type) where
  cacheKey : String
  value : α
  ttl : Nat
  createdAt : Nat
  deriving Repr, DecidableEq

/-- Outcome of the underlying `GetItemCommand`: the store threw, returned
no item, or returned a (possibly already expired) item. -/
inductive StoreRead (α : Type) where
  | err (message : String)
  | absent
  | item (it : CacheItem α)
  deriving Repr, DecidableEq

/-- `CacheService.get`: returns `item.value` whenever the store returned an
item, `null` on a missing item, and degrades to `null` when the store
throws. The row's `ttl` field is never consulted at read time. -/
def CacheService.get {α : Type} (read : StoreRead α) : Option α :=
  match read with
  | .err _ => none
  | .absent => none
  | .item it => some it.value

/-- `CACHE_CONFIG.TTL.FUSIONED_DATA` (src/utils/constants.ts): 30 minutes. -/
def CACHE_CONFIG.TTL.FUSIONED_DATA : Nat := 1800

/-- `CACHE_CONFIG.KEYS.FUSIONED` (src/utils/constants.ts). -/
def CACHE_CONFIG.KEYS.FUSIONED (characterId : String) : String :=
  "fusioned:" ++ characterId

/-- `CacheService.fusionKey`. -/
def CacheService.fusionKey (characterId : String) : String :=
  CACHE_CONFIG.KEYS.FUSIONED characterId

/-- `CacheService.set`: the item the `PutItemCommand` writes, with absolute
expiry `floor(Date.now()/1000) + ttlSeconds`. -/
def CacheService.setItem {α : Type} (nowMs : Nat) (key : String) (data : α)
    (ttlSeconds : Nat) : CacheItem α :=
  { cacheKey := key, value := data, ttl := nowMs / 1000 + ttlSeconds,
    createdAt := nowMs }

/- ## API call results (src/types/api.ts `ApiCallResult<T>`) -/

/-- Error payload of a failed upstream call. -/
structure ApiError where
  code : String
  message : String
  deriving Repr, DecidableEq

/-- `ApiCallResult<T>`: the services return `success:true` with data (and
optionally a warning) or `success:false` with an error; both carry the
measured duration. -/
inductive ApiCallResult (α : Type) where
  | ok (data : α) (duration : Nat) (warning : Option String)
  | fail (error : ApiError) (duration : Nat)
  deriving Repr, DecidableEq

/-- `result.success`. -/
def ApiCallResult.success {α : Type} : ApiCallResult α → Bool
  | .ok _ _ _ => true
  | .fail _ _ => false

/-- `result.duration || 0` (the duration is always present). -/
def ApiCallResult.duration {α : Type} : ApiCallResult α → Nat
  | .ok _ d _ => d
  | .fail _ d => d

/- ## Weather service (src/services/weatherService.ts) -/

/-- Subset of the OpenWeatherMap payload the service reads; optional
fields model the `?.` accesses, numeric fields are already rounded. -/
structure OWMain where
  temp : Int
  feelsLike : Int
  humidity : Int
  pressure : Int
  deriving Repr, DecidableEq

/-- One entry of the OpenWeatherMap `weather` array. -/
structure OWWeatherItem where
  main : String
  description : String
  icon : String
  deriving Repr, DecidableEq

/-- The raw OpenWeatherMap response (`OpenWeatherResponse`). -/
structure OpenWeatherResponse where
  name : String
  sysCountry : Option String
  coordLat : Option Int
  coordLon : Option Int
  main : OWMain
  visibility : Option Int
  windSpeedKmh : Option Int
  windDeg : Option Int
  weather0 : Option OWWeatherItem
  deriving Repr, DecidableEq

/-- Normalized weather (`NormalizedWeather` in src/types/api.ts). -/
structure WeatherLocation where
  name : String
  country : String
  lat : Int
  lon : Int
  deriving Repr, DecidableEq

/-- `NormalizedWeather.current`. -/
structure WeatherCurrent where
  temperature : Int
  feelsLike : Int
  humidity : Int
  pressure : Int
  visibility : Int
  windSpeed : Int
  windDirection : Int
  deriving Repr, DecidableEq

/-- `NormalizedWeather.conditions`. -/
structure WeatherConditions where
  main : String
  description : String
  icon : String
  deriving Repr, DecidableEq

/-- `NormalizedWeather.metadata`. -/
structure WeatherMetadata where
  timestamp : String
  source : String
  isFallback : Bool
  originalError : Option String
  deriving Repr, DecidableEq

/-- `NormalizedWeather`. -/
structure NormalizedWeather where
  location : WeatherLocation
  current : WeatherCurrent
  conditions : WeatherConditions
  metadata : WeatherMetadata
  deriving Repr, DecidableEq

/-- Injectable pseudo-random source for `getMockWeatherData`: the values
the `Math.random()` draws produced. -/
structure MockRand where
  temperature : Int
  feelsLike : Int
  humidity : Int
  pressure : Int
  visibility : Int
  windSpeed : Int
  windDirection : Int
  condIndex : Fin 4
  deriving Repr, DecidableEq

/-- `['Clear', 'Clouds', 'Rain', 'Mist'][i]`. -/
def mockCondMain (i : Fin 4) : String :=
  ["Clear", "Clouds", "Rain", "Mist"].getD i.val "Clear"

/-- `WeatherService.getMockWeatherData`: simulated weather, returned as a
SUCCESSFUL `ApiCallResult` carrying a warning, tagged
`source = "MOCK_DATA"`, `isFallback = true`. -/
def WeatherService.getMockWeatherData (planetName : String) (duration : Nat)
    (errMsg : Option String) (rand : MockRand) (nowIso : String) :
    ApiCallResult NormalizedWeather :=
  .ok
    { location := { name := planetName,
                    country := "Galaxy Far Far Away",
                    lat := 0, lon := 0 },
      current := { temperature := rand.temperature,
                   feelsLike := rand.feelsLike,
                   humidity := rand.humidity,
                   pressure := rand.pressure,
                   visibility := rand.visibility,
                   windSpeed := rand.windSpeed,
                   windDirection := rand.windDirection },
      conditions := { main := mockCondMain rand.condIndex,
                      description := "Simulated weather conditions",
                      icon := "01d" },
      metadata := { timestamp := nowIso,
                    source := "MOCK_DATA",
                    isFallback := true,
                    originalError := errMsg } }
    duration
    (some "Using mock weather data - API unavailable")

/-- `WeatherService.mapPlanetToLocation`. -/
def WeatherService.mapPlanetToLocation (planetName : String) : String :=
  let planetLocationMap : List (String × String) :=
    [("Tatooine", "Tucson,US"), ("Alderaan", "Geneva,CH"),
     ("Yavin IV", "Manaus,BR"), ("Hoth", "Anchorage,US"),
     ("Dagobah", "New Orleans,US"), ("Bespin", "Denver,US"),
     ("Endor", "Vancouver,CA"), ("Naboo", "Rome,IT"),
     ("Coruscant", "New York,US"), ("Kamino", "Reykjavik,IS")]
  match planetLocationMap.lookup planetName with
  | some loc => loc
  | none => "London,UK"

/-- `WeatherService.normalizeWeather`: field-for-field normalization with
the source's `||` defaults. -/
def WeatherService.normalizeWeather (weather : OpenWeatherResponse)
    (planetName : String) (nowIso : String) : NormalizedWeather :=
  { location := { name := jsOrStr weather.name planetName,
                  country := jsOrOptStr weather.sysCountry "Unknown",
                  lat := weather.coordLat.getD 0,
                  lon := weather.coordLon.getD 0 },
    current := { temperature := weather.main.temp,
                 feelsLike := weather.main.feelsLike,
                 humidity := weather.main.humidity,
                 pressure := weather.main.pressure,
                 visibility := weather.visibility.getD 0,
                 windSpeed := weather.windSpeedKmh.getD 0,
                 windDirection := weather.windDeg.getD 0 },
    conditions := { main := jsOrStr ((weather.weather0.map OWWeatherItem.main).getD "") "Unknown",
                    description := jsOrStr ((weather.weather0.map OWWeatherItem.description).getD "") "No description",
                    icon := jsOrStr ((weather.weather0.map OWWeatherItem.icon).getD "") "01d" },
    metadata := { timestamp := nowIso,
                  source := "OPENWEATHERMAP",
                  isFallback := false,
                  originalError := none } }

/-- Outcome of the single `httpClient.get` call to OpenWeatherMap. -/
inductive HttpResult (α : Type) where
  | ok (data : α)
  | error (message : String)
  deriving Repr, DecidableEq

/-- `WeatherService.getWeatherByPlanet`: no API key → mock data; HTTP
error → mock data; otherwise normalize the live response. Every branch
returns `success:true`. -/
def WeatherService.getWeatherByPlanet (apiKey : String)
    (http : HttpResult OpenWeatherResponse) (rand : MockRand)
    (nowIso : String) (duration : Nat) (planetName : String) :
    ApiCallResult NormalizedWeather :=
  if apiKey = "" then
    WeatherService.getMockWeatherData planetName duration none rand nowIso
  else
    match http with
    | .ok resp =>
        .ok (WeatherService.normalizeWeather resp planetName nowIso) duration none
    | .error msg =>
        WeatherService.getMockWeatherData planetName duration (some msg) rand nowIso

/- ## SWAPI normalized data (src/services/swapiService.ts, src/types/api.ts) -/

/-- `NormalizedCharacter.physicalAttributes` (nullable numbers model
upstream "unknown"). -/
structure PhysicalAttributes where
  height : Option Int
  mass : Option Int
  hairColor : String
  skinColor : String
  eyeColor : String
  deriving Repr, DecidableEq

/-- `NormalizedCharacter.biography`. -/
structure Biography where
  birthYear : String
  gender : String
  deriving Repr, DecidableEq

/-- `NormalizedCharacter.homeworld`. -/
structure HomeworldRef where
  id : String
  name : String
  url : String
  deriving Repr, DecidableEq

/-- `NormalizedCharacter` (restricted to the fields the fusion handler reads). -/
structure NormalizedCharacter where
  id : String
  name : String
  physicalAttributes : PhysicalAttributes
  biography : Biography
  homeworld : HomeworldRef
  deriving Repr, DecidableEq

/-- `NormalizedPlanet.environment`. -/
structure PlanetEnvironment where
  climate : List String
  terrain : List String
  deriving Repr, DecidableEq

/-- `NormalizedPlanet` (restricted to the fields the fusion handler reads). -/
structure NormalizedPlanet where
  id : String
  name : String
  environment : PlanetEnvironment
  deriving Repr, DecidableEq

/- ## Fusion handler (src/handlers/fusion.ts) -/

/-- The local `planetData` record of the fusion handler. -/
structure PlanetData where
  id : String
  name : String
  climate : String
  terrain : String
  deriving Repr, DecidableEq

/-- The handler's untyped `weatherData` object. Optional fields model the
properties absent on the `unavailable` stub (`undefined` in JS). -/
structure WeatherData where
  status : Option String
  message : Option String
  location : Option String
  country : Option String
  temperature : Option Int
  feelsLike : Option Int
  humidity : Option Int
  pressure : Option Int
  windSpeed : Option Int
  conditions : Option String
  source : String
  isFallback : Option Bool
  deriving Repr, DecidableEq

/-- The stub assigned when `weatherResult.success` is false:
`{ status: 'unavailable', message: ..., source: 'mock' }`. -/
def WeatherData.unavailableStub : WeatherData :=
  { status := some "unavailable",
    message := some "Weather service temporarily unavailable",
    location := none, country := none, temperature := none,
    feelsLike := none, humidity := none, pressure := none,
    windSpeed := none, conditions := none,
    source := "mock", isFallback := none }

/-- The flattening of a successful `NormalizedWeather` performed inline in
the handler. -/
def WeatherData.fromNormalized (weather : NormalizedWeather) : WeatherData :=
  { status := none, message := none,
    location := some weather.location.name,
    country := some weather.location.country,
    temperature := some weather.current.temperature,
    feelsLike := some weather.current.feelsLike,
    humidity := some weather.current.humidity,
    pressure := some weather.current.pressure,
    windSpeed := some weather.current.windSpeed,
    conditions := some weather.conditions.description,
    source := weather.metadata.source,
    isFallback := some weather.metadata.isFallback }

/-- `calculatePlanetWeatherCompatibility` (src/handlers/fusion.ts):
`none` models a null/undefined `weatherData` argument;
`getD 0` models `|| 0` on numbers and `?.toLowerCase() || ''` on strings. -/
def calculatePlanetWeatherCompatibility (planetClimate : String)
    (weatherData : Option WeatherData) : String :=
  match weatherData with
  | none => "unknown"
  | some w =>
    if w.source = "mock" then "unknown"
    else
      let climate := jsToLower planetClimate
      let temp := w.temperature.getD 0
      let conditions := (w.conditions.map jsToLower).getD ""
      if includesStr climate "desert" then
        if temp > 25 ∧ includesStr conditions "clear" then "perfect match"
        else if temp > 15 then "good match"
        else "poor match"
      else if includesStr climate "frozen" ∨ includesStr climate "cold" then
        if temp < 0 then "perfect match"
        else if temp < 10 then "good match"
        else "poor match"
      else if includesStr climate "temperate" then
        if 15 ≤ temp ∧ temp ≤ 25 then "perfect match"
        else if 5 ≤ temp ∧ temp ≤ 30 then "good match"
        else "fair match"
      else if includesStr climate "tropical" ∨ includesStr climate "jungle" then
        if temp > 20 ∧ w.humidity.getD 0 > 70 then "perfect match"
        else if temp > 15 then "good match"
        else "fair match"
      else "fair match"

/-- `fusionedData.character`. -/
structure FusedCharacter where
  id : String
  name : String
  height : Option Int
  mass : Option Int
  hairColor : String
  eyeColor : String
  birthYear : String
  gender : String
  deriving Repr, DecidableEq

/-- `fusionedData.fusion.dataQuality`. -/
structure FusionQuality where
  character : String
  planet : String
  weather : String
  deriving Repr, DecidableEq

/-- `fusionedData.fusion`. -/
structure FusionInfo where
  summary : String
  compatibility : String
  dataQuality : FusionQuality
  deriving Repr, DecidableEq

/-- `fusionedData.meta`. -/
structure FusionMeta where
  source : String
  requestId : String
  version : String
  ptCharacter : Nat
  ptPlanet : Nat
  ptWeather : Nat
  deriving Repr, DecidableEq

/-- The merged `fusionedData` object (the FusionResult). -/
structure FusionData where
  character : FusedCharacter
  homeworld : PlanetData
  weather : WeatherData
  fusion : FusionInfo
  meta : FusionMeta
  deriving Repr, DecidableEq

/- ## HTTP responses (src/utils/response.ts, restricted to the envelope
fields the claims inspect) -/

/-- Body of a response: success with data plus the `cached`/`duration`
meta fields, or an error with code and message. -/
inductive RespBody (α : Type) where
  | ok (data : α) (cached : Bool) (duration : Nat)
  | err (code : String) (message : String)
  deriving Repr, DecidableEq

/-- A response: status code plus body. -/
structure Resp (α : Type) where
  statusCode : Nat
  body : RespBody α
  deriving Repr, DecidableEq

/-- `success(...)` → HTTP 200. -/
def Response.success {α : Type} (data : α) (cached : Bool) (duration : Nat) :
    Resp α :=
  { statusCode := 200, body := .ok data cached duration }

/-- `badRequest(...)` → HTTP 400, code `BAD_REQUEST`. -/
def Response.badRequest {α : Type} (message : String) : Resp α :=
  { statusCode := 400, body := .err "BAD_REQUEST" message }

/-- `tooManyRequests(...)` → HTTP 429, code `RATE_LIMIT_EXCEEDED`. -/
def Response.tooManyRequests {α : Type} (message : String) : Resp α :=
  { statusCode := 429, body := .err "RATE_LIMIT_EXCEEDED" message }

/- ## Fusion pipeline orchestration -/

/-- The inbound event, restricted to what the fusion handler reads. -/
structure FusionEvent where
  character : Option String
  requestId : String
  deriving Repr, DecidableEq

/-- Oracle for the external effects of one fusion invocation: the outcome
each store/upstream call would produce if performed. -/
structure FusionEnv where
  cacheRead : StoreRead FusionData
  characterResult : ApiCallResult NormalizedCharacter
  planetResult : ApiCallResult NormalizedPlanet
  weatherApiKey : String
  weatherHttp : HttpResult OpenWeatherResponse
  weatherRand : MockRand
  weatherDuration : Nat
  nowIso : String
  dbOk : Bool
  deriving Repr, DecidableEq

/-- Effect trace of one fusion invocation: how many upstream fetches ran,
the cache writes (key, value, ttlSeconds) and history rows appended. -/
structure FusionTrace where
  characterFetches : Nat
  planetFetches : Nat
  weatherFetches : Nat
  cacheWrites : List (String × FusionData × Nat)
  historyAppends : Nat
  deriving Repr, DecidableEq

/-- The empty trace: no fetch, no write, no history row. -/
def FusionTrace.empty : FusionTrace :=
  { characterFetches := 0, planetFetches := 0, weatherFetches := 0,
    cacheWrites := [], historyAppends := 0 }

/-- `event.queryStringParameters?.character || '1'`. -/
def characterIdOf (event : FusionEvent) : String :=
  jsOrOptStr event.character "1"

/-- The `planetData` local: sentinel `"Unknown"` record overwritten on a
successful planet fetch (`climate.join(', ') || 'Unknown'`). -/
def planetDataOf (character : NormalizedCharacter)
    (planetResult : ApiCallResult NormalizedPlanet) : PlanetData :=
  match planetResult with
  | .ok planet _ _ =>
      { id := planet.id, name := planet.name,
        climate := jsOrStr (String.intercalate ", " planet.environment.climate) "Unknown",
        terrain := jsOrStr (String.intercalate ", " planet.environment.terrain) "Unknown" }
  | .fail _ _ =>
      { id := character.homeworld.id, name := "Unknown",
        climate := "Unknown", terrain := "Unknown" }

/-- The weather call the handler performs for the derived planet name. -/
def weatherCallOf (env : FusionEnv) (planetName : String) :
    ApiCallResult NormalizedWeather :=
  WeatherService.getWeatherByPlanet env.weatherApiKey env.weatherHttp
    env.weatherRand env.nowIso env.weatherDuration planetName

/-- The `weatherData` local: flattened weather on success, the
`source:'mock'` stub otherwise. -/
def weatherDataOf (weatherResult : ApiCallResult NormalizedWeather) :
    WeatherData :=
  match weatherResult with
  | .ok weather _ _ => WeatherData.fromNormalized weather
  | .fail _ _ => WeatherData.unavailableStub

/-- `${weatherData.conditions || 'unknown conditions'}` in the summary. -/
def summaryConditions (w : WeatherData) : String :=
  jsOrOptStr w.conditions "unknown conditions"

/-- The `fusionedData` object assembled on the cache-miss path once the
character fetch has succeeded. -/
def fusionMissData (event : FusionEvent) (character : NormalizedCharacter)
    (chDur : Nat) (env : FusionEnv) : FusionData :=
  let planetData := planetDataOf character env.planetResult
  let weatherResult := weatherCallOf env planetData.name
  let weatherData := weatherDataOf weatherResult
  { character := { id := character.id,
                   name := character.name,
                   height := character.physicalAttributes.height,
                   mass := character.physicalAttributes.mass,
                   hairColor := character.physicalAttributes.hairColor,
                   eyeColor := character.physicalAttributes.eyeColor,
                   birthYear := character.biography.birthYear,
                   gender := character.biography.gender },
    homeworld := planetData,
    weather := weatherData,
    fusion := { summary := character.name ++ " from " ++ planetData.name
                  ++ " - Currently " ++ summaryConditions weatherData,
                compatibility := calculatePlanetWeatherCompatibility
                  planetData.climate (some weatherData),
                dataQuality := { character := "complete",
                                 planet := if env.planetResult.success
                                   then "complete" else "partial",
                                 weather := if weatherResult.success
                                   then "complete" else "fallback" } },
    meta := { source := "SWAPI + OpenWeatherMap",
              requestId := event.requestId,
              version := "1.0.0",
              ptCharacter := chDur,
              ptPlanet := env.planetResult.duration,
              ptWeather := weatherResult.duration } }

/-- `baseHandler` (src/handlers/fusion.ts): cache lookup; on hit return the
cached data with `cached=true` and duration 0; on miss fetch the
character (failure → 400 and stop), build `fusionedData`, cache it with
the 30-minute TTL, best-effort append a history row, and return it with
`cached=false` and the cumulative duration. -/
def baseHandler (event : FusionEvent) (env : FusionEnv) :
    Resp FusionData × FusionTrace :=
  let characterId := characterIdOf event
  let cacheKey := CacheService.fusionKey characterId
  match CacheService.get env.cacheRead with
  | some cachedData =>
      (Response.success cachedData true 0, FusionTrace.empty)
  | none =>
    match env.characterResult with
    | .fail _ _ =>
        (Response.badRequest
          ("Character " ++ characterId ++ " not found or unavailable"),
         { FusionTrace.empty with characterFetches := 1 })
    | .ok character chDur _ =>
        let fusionedData := fusionMissData event character chDur env
        let totalProcessingTime := chDur + env.planetResult.duration
          + (weatherCallOf env (planetDataOf character env.planetResult).name).duration
        (Response.success fusionedData false totalProcessingTime,
         { characterFetches := 1, planetFetches := 1, weatherFetches := 1,
           cacheWrites := [(cacheKey, fusionedData, CACHE_CONFIG.TTL.FUSIONED_DATA)],
           historyAppends := if env.dbOk then 1 else 0 })

/-- `response.body.data` of a success body, `none` for an error body. -/
def RespBody.dataOf {α : Type} : RespBody α → Option α
  | .ok d _ _ => some d
  | .err _ _ => none

/-- The `cached` meta flag of a success body. -/
def RespBody.cachedOf {α : Type} : RespBody α → Option Bool
  | .ok _ c _ => some c
  | .err _ _ => none

/- ## Rate limiter middleware (src/middleware/rateLimiter.ts) -/

/-- The inbound event fields the limiter reads
(`requestContext.identity?.sourceIp`, `httpMethod`, `path`). -/
structure RateEvent where
  sourceIp : Option String
  httpMethod : String
  path : String
  deriving Repr, DecidableEq

/-- The counter object stored at the rate key: `{ count: n }`. -/
structure RateCounter where
  count : Int
  deriving Repr, DecidableEq

/-- Where, if anywhere, an exception escapes into the limiter's
`catch` block during this invocation: at/before the counter read, or at
the counter write. -/
inductive LimiterThrow where
  | noThrow
  | atGet
  | atSet
  deriving Repr, DecidableEq

/-- Effect trace of one limiter invocation: how many times the wrapped
handler ran and the counter write performed (key, new count, ttlSeconds). -/
structure RateTrace where
  handlerCalls : Nat
  stored : Option (String × Int × Int)
  deriving Repr, DecidableEq

/-- `rate_limit:${clientIp}:${method}:${path}` with
`clientIp = sourceIp || 'unknown'`. -/
def rateKeyOf (event : RateEvent) : String :=
  "rate_limit:" ++ jsOrOptStr event.sourceIp "unknown" ++ ":"
    ++ event.httpMethod ++ ":" ++ event.path

/-- The counter value the limiter computes:
`cachedData ? parseInt(cachedData.count, 10) : 0`. -/
def rateCountOf (getRead : StoreRead RateCounter) : Int :=
  match CacheService.get getRead with
  | some c => c.count
  | none => 0

/-- `rateLimiter(options)(handler)` (src/middleware/rateLimiter.ts).
`envReq`/`envWin` are the parsed `RATE_LIMIT_REQUESTS` /
`RATE_LIMIT_WINDOW_MINUTES` environment overrides (absent → options
values). Read counter; at/over the limit → 429 with the limit and window
in the message; otherwise store `count+1` with TTL `windowMinutes*60`
and invoke the handler. Any exception (modelled by `throwAt`) is caught
and fail-open runs the handler. -/
def rateLimiter {α : Type} (requestsLimit windowMinutes : Int)
    (envReq envWin : Option Int) (event : RateEvent)
    (getRead : StoreRead RateCounter) (throwAt : LimiterThrow)
    (handlerResult : Resp α) : Resp α × RateTrace :=
  let envRequestsLimit := envReq.getD requestsLimit
  let envWindowMinutes := envWin.getD windowMinutes
  let rateKey := rateKeyOf event
  match throwAt with
  | .atGet => (handlerResult, { handlerCalls := 1, stored := none })
  | _ =>
    let count := rateCountOf getRead
    if count ≥ envRequestsLimit then
      (Response.tooManyRequests
        ("Rate limit exceeded. Maximum " ++ toString envRequestsLimit
          ++ " requests allowed per " ++ toString envWindowMinutes
          ++ " minutes."),
       { handlerCalls := 0, stored := none })
    else
      let ttlSeconds := envWindowMinutes * 60
      match throwAt with
      | .atSet => (handlerResult, { handlerCalls := 1, stored := none })
      | _ =>
          (handlerResult,
           { handlerCalls := 1, stored := some (rateKey, count + 1, ttlSeconds) })

/- ## History handler (src/handlers/history.ts) -/

/-- The query-string parameters the history handler reads. -/
structure HistoryQuery where
  limit : Option String
  cursor : Option String
  source : Option String
  startTime : Option String
  endTime : Option String
  deriving Repr, DecidableEq

/-- `queryParams.t ? parseInt(queryParams.t) : undefined`: outer `none` is
`undefined` (param absent or empty), inner `none` is `NaN`. -/
def timeParamOf (p : Option String) : Option (Option Int) :=
  match p with
  | none => none
  | some s => if s = "" then none else some (parseIntJS s)

/-- `API_LIMITS.MAX_PAGE_SIZE` (src/utils/constants.ts). -/
def API_LIMITS.MAX_PAGE_SIZE : Int := 100

/-- The `limit` local: `isNaN(parsed) ? -1 : Math.min(parsed, 100)` over
`parseInt(queryParams.limit || '10')`. -/
def effLimit (q : HistoryQuery) : Int :=
  match parseIntJS (jsOrOptStr q.limit "10") with
  | none => -1
  | some n => min n API_LIMITS.MAX_PAGE_SIZE

/-- The `source` local: `queryParams.source || 'all'`. -/
def effSource (q : HistoryQuery) : String :=
  jsOrOptStr q.source "all"

/-- The options handed to `dbService.getHistory` when validation passes. -/
structure HistoryQueryOptions where
  limit : Int
  lastEvaluatedKey : Option String
  source : String
  startTime : Option (Option Int)
  endTime : Option (Option Int)
  deriving Repr, DecidableEq

/-- The query options the handler builds. -/
def queryOptionsOf (q : HistoryQuery) : HistoryQueryOptions :=
  { limit := effLimit q,
    lastEvaluatedKey := match q.cursor with
      | none => none
      | some s => if s = "" then none else some s,
    source := effSource q,
    startTime := timeParamOf q.startTime,
    endTime := timeParamOf q.endTime }

/-- Outcome of the handler up to the store query: a `badRequest` rejection
issued before any store access, or the store query with its options. -/
inductive HistoryOutcome where
  | rejected (message : String)
  | queried (options : HistoryQueryOptions)
  deriving Repr, DecidableEq

/-- The validation-and-query prefix of the history `handler`
(src/handlers/history.ts lines 28-87): parse params, run the three
validations in order, and only then issue the store query. The time-range
check is JS `startTime && endTime && startTime > endTime`, so a bound
that is `undefined`, `NaN` or `0` disables it. -/
def historyHandler (q : HistoryQuery) : HistoryOutcome :=
  let limit := effLimit q
  let source := effSource q
  let startTime := timeParamOf q.startTime
  let endTime := timeParamOf q.endTime
  if limit < 1 then
    .rejected "Limit must be a positive integer"
  else if source ≠ "" ∧ ¬ (source ∈ ["fusion", "custom", "all"]) then
    .rejected "Source must be one of: fusion, custom, all"
  else
    match startTime, endTime with
    | some (some s), some (some e) =>
        if s ≠ 0 ∧ e ≠ 0 ∧ s > e then
          .rejected "Start time cannot be greater than end time"
        else .queried (queryOptionsOf q)
    | _, _ => .queried (queryOptionsOf q)
/- ## Concrete fixtures -/

/-- A concrete normalized character (Luke Skywalker, id 1). -/
def lukeCharacter : NormalizedCharacter :=
  { id := "1", name := "Luke Skywalker",
    physicalAttributes := { height := some 172, mass := some 77,
                            hairColor := "blond", skinColor := "fair",
                            eyeColor := "blue" },
    biography := { birthYear := "19BBY", gender := "male" },
    homeworld := { id := "1", name := "",
                   url := "https://swapi.dev/api/planets/1/" } }

/-- A concrete planet whose climate list contains the `desert` keyword. -/
def desertPlanet : NormalizedPlanet :=
  { id := "1", name := "Tatooine",
    environment := { climate := ["desert"], terrain := ["desert"] } }

/-- Fixed pseudo-random draws for the simulated weather. -/
def fixedRand : MockRand :=
  { temperature := 20, feelsLike := 18, humidity := 50, pressure := 1010,
    visibility := 9000, windSpeed := 10, windDirection := 180,
    condIndex := 0 }

/-- A cache-miss environment in which the character and planet fetches
succeed but the weather fetch fails for lack of an API key. -/
def missingKeyEnv : FusionEnv :=
  { cacheRead := .absent,
    characterResult := .ok lukeCharacter 100 none,
    planetResult := .ok desertPlanet 50 none,
    weatherApiKey := "",
    weatherHttp := .error "ECONNREFUSED",
    weatherRand := fixedRand,
    weatherDuration := 25,
    nowIso := "2026-01-01T00:00:00.000Z",
    dbOk := true }

/-- The fusion event `GET /fusion?character=1`. -/
def eventChar1 : FusionEvent := { character := some "1", requestId := "req-1" }

/-- The fusion result the miss run over `missingKeyEnv` caches. -/
def hitData : FusionData := fusionMissData eventChar1 lukeCharacter 100 missingKeyEnv

/-- A cache row holding that result. -/
def hitItem : CacheItem FusionData := ⟨"fusioned:1", hitData, 1000, 0⟩

/-- The same environment on a later request, with the row now cached. -/
def hitEnv : FusionEnv := { missingKeyEnv with cacheRead := .item hitItem }

/-- The fusion event `GET /fusion?character=999`. -/
def eventChar999 : FusionEvent := { character := some "999", requestId := "req-4" }

/-- An environment whose character fetch fails upstream. -/
def failCharEnv : FusionEnv :=
  { missingKeyEnv with
    characterResult := .fail ⟨"SWAPI_ERROR", "Request failed with status code 404"⟩ 30 }

/-- An environment whose planet fetch fails upstream. -/
def failPlanetEnv : FusionEnv :=
  { missingKeyEnv with
    planetResult := .fail ⟨"SWAPI_ERROR", "Request failed with status code 500"⟩ 40 }

/-- A live (non-simulated) weather object over a hot clear day. -/
def liveDesertWeather : WeatherData :=
  { status := none, message := none, location := some "Tucson",
    country := some "US", temperature := some 30, feelsLike := some 31,
    humidity := some 20, pressure := some 1008, windSpeed := some 12,
    conditions := some "Clear sky", source := "OPENWEATHERMAP",
    isFallback := some false }

/-- A concrete wrapped-handler result for limiter runs. -/
def okUnitResp : Resp Unit := Response.success () false 0

/-- The compatibility table as the specification states it: climate keyword
→ rule, priority order desert, frozen/cold, temperate, tropical/jungle,
first keyword match wins, the fair rating when no keyword matches.
Returns the bare rating names of the table. -/
def compatibilitySpecTable (climate : String) (temp humidity : Int)
    (conditions : String) : String :=
  let c := jsToLower climate
  let cond := jsToLower conditions
  if includesStr c "desert" then
    if temp > 25 ∧ includesStr cond "clear" then "perfect"
    else if temp > 15 then "good"
    else "poor"
  else if includesStr c "frozen" ∨ includesStr c "cold" then
    if temp < 0 then "perfect"
    else if temp < 10 then "good"
    else "poor"
  else if includesStr c "temperate" then
    if 15 ≤ temp ∧ temp ≤ 25 then "perfect"
    else if 5 ≤ temp ∧ temp ≤ 30 then "good"
    else "fair"
  else if includesStr c "tropical" ∨ includesStr c "jungle" then
    if temp > 20 ∧ humidity > 70 then "perfect"
    else if temp > 15 then "good"
    else "fair"
  else "fair"

/-- The time-range guard that actually fires in the history handler:
`startTime && endTime && startTime > endTime` — both bounds must be
present, numeric (not NaN) and nonzero for the rejection to trigger. -/
def badTimeRange (q : HistoryQuery) : Bool :=
  match timeParamOf q.startTime, timeParamOf q.endTime with
  | some (some s), some (some e) => s ≠ 0 && e ≠ 0 && decide (s > e)
  | _, _ => false

/- ## Helper lemmas -/

/-- The weather service call of the fusion pipeline never fails: every
branch of `getWeatherByPlanet` (missing key, HTTP error, live response)
returns `success:true` with the measured duration. -/
theorem weatherCallOf_success (env : FusionEnv) (name : String) :
    (weatherCallOf env name).success = true ∧
    (weatherCallOf env name).duration = env.weatherDuration := by
  unfold weatherCallOf WeatherService.getWeatherByPlanet
  constructor <;>
    · split
      · rfl
      · cases env.weatherHttp <;> rfl

/-- `(o.map jsToLower).getD "" = jsToLower (o.getD "")`. -/
theorem optToLowerComm (o : Option String) :
    (o.map jsToLower).getD "" = jsToLower (o.getD "") := by
  cases o <;> rfl

/-- The `source` local of the history handler is never the empty string. -/
theorem effSource_ne_empty (q : HistoryQuery) : effSource q ≠ "" := by
  unfold effSource jsOrOptStr jsOrStr
  cases q.source with
  | none => decide
  | some s =>
      dsimp only
      split
      · decide
      · assumption

/-- Radix inference of the radix-less `parseInt`: a `0x`/`0X` prefix is
parsed as hexadecimal, so `limit="0x10"` is accepted with limit 16 and
the range check fires on `startTime="0x20"` > `endTime="0x10"`. -/
theorem parseIntJS_hex_inference :
    parseIntJS "0x10" = some 16 ∧
    historyHandler { limit := some "0x10", cursor := none, source := none,
                     startTime := none, endTime := none } =
      HistoryOutcome.queried { limit := 16, lastEvaluatedKey := none,
                               source := "all", startTime := none,
                               endTime := none } ∧
    historyHandler { limit := none, cursor := none, source := none,
                     startTime := some "0x20", endTime := some "0x10" } =
      HistoryOutcome.rejected "Start time cannot be greater than end time" := by
  exact ⟨by decide, by decide, by decide⟩

/- ## Claim theorems -/

/-- Claim C1 (code-bug evaluation): on a fusion request whose weather fetch
fails (here: missing upstream credentials), the returned result does use
simulated weather data (`weather.source = "MOCK_DATA"`, which differs
from `"OPENWEATHERMAP"`, and `isFallback = true`), but — because
`getWeatherByPlanet` reports the mock fallback as `success:true` and
tags it `"MOCK_DATA"` while the handler's compatibility check tests for
the string `'mock'` — `fusion.dataQuality.weather` comes out
`"complete"` (the claim requires `"fallback"`) and `fusion.compatibility`
is computed from the climate table over the simulated values (here
`"good match"`; the claim requires `"unknown"`). -/
theorem fusion_weather_failure_quality_bug :
    (baseHandler eventChar1 missingKeyEnv).1 =
      Response.success (fusionMissData eventChar1 lukeCharacter 100 missingKeyEnv)
        false 175 ∧
    (fusionMissData eventChar1 lukeCharacter 100 missingKeyEnv).weather.source
      = "MOCK_DATA" ∧
    (fusionMissData eventChar1 lukeCharacter 100 missingKeyEnv).weather.isFallback
      = some true ∧
    (fusionMissData eventChar1 lukeCharacter 100 missingKeyEnv).fusion.dataQuality.weather
      = "complete" ∧
    (fusionMissData eventChar1 lukeCharacter 100 missingKeyEnv).fusion.compatibility
      = "good match" := by
  refine ⟨rfl, rfl, rfl, rfl, rfl⟩

/-- Claim C2 counterexample: a concrete cache row whose expiry timestamp
(100) has passed (now = 200) but which the store still holds; `get`
returns its value (`some 7`) rather than the absent result (`none`) the
claim requires. -/
theorem cache_get_expired_counterexample :
    (100 : Nat) < 200 ∧
    CacheService.get (StoreRead.item
      (⟨"fusioned:1", (7 : Nat), 100, 0⟩ : CacheItem Nat)) = some 7 := by
  decide

/-- Claim C2 (amended): a cache get returns the absent result exactly when
the underlying store returns no row (never set, already physically
removed, or a store error); a row past its expiry timestamp that the
store still holds is returned unchanged — `get` performs no read-time
expiry check. -/
theorem cache_get_expiry_behavior {α : Type} (it : CacheItem α) (now : Nat)
    (msg : String) (_hexp : it.ttl < now) :
    CacheService.get (StoreRead.item it) = some it.value ∧
    CacheService.get (StoreRead.absent (α := α)) = none ∧
    CacheService.get (StoreRead.err (α := α) msg) = none := by
  exact ⟨rfl, rfl, rfl⟩

/-- Claim C2 witness: the amended theorem applied at a concrete expired
row. -/
theorem cache_get_expiry_behavior_witness :
    CacheService.get (StoreRead.item
      (⟨"fusioned:1", (7 : Nat), 100, 0⟩ : CacheItem Nat)) = some 7 ∧
    CacheService.get (StoreRead.absent (α := Nat)) = none ∧
    CacheService.get (StoreRead.err (α := Nat) "boom") = none :=
  cache_get_expiry_behavior ⟨"fusioned:1", (7 : Nat), 100, 0⟩ 200 "boom"
    (by decide)

/-- Claim C3: a fusion request that hits the cache returns the cached data
unchanged with `cached=true` and zero processing time, performs no
upstream fetch, appends no history row and writes nothing to the cache
(empty trace); the hit returns exactly the data the earlier miss run
cached, and the miss run plus the hit run append exactly one history
row in total. -/
theorem fusion_cache_hit_no_effects
    (event : FusionEvent) (env1 env2 : FusionEnv) (d1 : FusionData)
    (it : CacheItem FusionData)
    (hmiss : CacheService.get env1.cacheRead = none)
    (hch : env1.characterResult.success = true)
    (hdb : env1.dbOk = true)
    (hwrote : (baseHandler event env1).2.cacheWrites =
      [(CacheService.fusionKey (characterIdOf event), d1,
        CACHE_CONFIG.TTL.FUSIONED_DATA)])
    (hval : it.value = d1)
    (henv2 : env2.cacheRead = .item it) :
    baseHandler event env2 = (Response.success d1 true 0, FusionTrace.empty) ∧
    (baseHandler event env1).1.body.dataOf = some d1 ∧
    (baseHandler event env1).2.historyAppends
      + (baseHandler event env2).2.historyAppends = 1 := by
  have h2 : baseHandler event env2 = (Response.success d1 true 0, FusionTrace.empty) := by
    simp [baseHandler, henv2, CacheService.get, hval]
  cases hcr : env1.characterResult with
  | fail e dur =>
      rw [hcr] at hch
      simp [ApiCallResult.success] at hch
  | ok ch chDur w =>
      have h1 : baseHandler event env1 =
          (Response.success (fusionMissData event ch chDur env1) false
            (chDur + env1.planetResult.duration
              + (weatherCallOf env1 (planetDataOf ch env1.planetResult).name).duration),
           { characterFetches := 1, planetFetches := 1, weatherFetches := 1,
             cacheWrites := [(CacheService.fusionKey (characterIdOf event),
               fusionMissData event ch chDur env1, CACHE_CONFIG.TTL.FUSIONED_DATA)],
             historyAppends := if env1.dbOk then 1 else 0 }) := by
        simp [baseHandler, hmiss, hcr]
      rw [h1] at hwrote
      simp only [Prod.mk.injEq, List.cons.injEq, and_true] at hwrote
      refine ⟨h2, ?_, ?_⟩
      · rw [h1]
        simp [RespBody.dataOf, Response.success, hwrote.2]
      · rw [h1, h2, hdb]
        rfl

/-- Claim C3 witness: a concrete miss run followed by a hit run on the row
it cached. -/
theorem fusion_cache_hit_no_effects_witness :
    baseHandler eventChar1 hitEnv = (Response.success hitData true 0, FusionTrace.empty) ∧
    (baseHandler eventChar1 missingKeyEnv).1.body.dataOf = some hitData ∧
    (baseHandler eventChar1 missingKeyEnv).2.historyAppends
      + (baseHandler eventChar1 hitEnv).2.historyAppends = 1 :=
  fusion_cache_hit_no_effects eventChar1 missingKeyEnv hitEnv hitData hitItem
    rfl rfl rfl rfl rfl rfl

/-- Claim C4: on a cache miss whose character fetch fails, the pipeline
stops with an HTTP 400 `"not found or unavailable"` error and neither
the planet fetch nor the weather fetch is performed. -/
theorem fusion_character_failure_aborts
    (event : FusionEvent) (env : FusionEnv) (e : ApiError) (dur : Nat)
    (hmiss : CacheService.get env.cacheRead = none)
    (hfail : env.characterResult = .fail e dur) :
    baseHandler event env =
      (Response.badRequest
        ("Character " ++ characterIdOf event ++ " not found or unavailable"),
       { FusionTrace.empty with characterFetches := 1 }) ∧
    (baseHandler event env).1.statusCode = 400 ∧
    (baseHandler event env).2.planetFetches = 0 ∧
    (baseHandler event env).2.weatherFetches = 0 := by
  have h : baseHandler event env =
      (Response.badRequest
        ("Character " ++ characterIdOf event ++ " not found or unavailable"),
       { FusionTrace.empty with characterFetches := 1 }) := by
    simp [baseHandler, hmiss, hfail]
  exact ⟨h, by rw [h]; rfl, by rw [h]; rfl, by rw [h]; rfl⟩

/-- Claim C4 witness: a concrete failed character fetch. -/
theorem fusion_character_failure_aborts_witness :
    baseHandler eventChar999 failCharEnv =
      (Response.badRequest
        ("Character " ++ characterIdOf eventChar999 ++ " not found or unavailable"),
       { FusionTrace.empty with characterFetches := 1 }) ∧
    (baseHandler eventChar999 failCharEnv).1.statusCode = 400 ∧
    (baseHandler eventChar999 failCharEnv).2.planetFetches = 0 ∧
    (baseHandler eventChar999 failCharEnv).2.weatherFetches = 0 :=
  fusion_character_failure_aborts eventChar999 failCharEnv
    ⟨"SWAPI_ERROR", "Request failed with status code 404"⟩ 30 rfl rfl

/-- Claim C5: with the environment overrides absent, a request whose
counter has reached the limit is rejected with HTTP 429 (code
`RATE_LIMIT_EXCEEDED`) carrying the limit and window in the message and
without invoking the wrapped handler; otherwise the counter is stored
incremented by one with TTL `windowMinutes*60` seconds and the wrapped
handler runs; in a fresh window (counter row absent after TTL expiry) a
request succeeds whenever the limit is positive, regardless of how the
previous window ended. -/
theorem rate_limiter_fixed_window {α : Type} (requestsLimit windowMinutes : Int)
    (event : RateEvent) (getRead : StoreRead RateCounter)
    (handlerResult : Resp α) :
    rateLimiter requestsLimit windowMinutes none none event getRead
        .noThrow handlerResult =
      (if rateCountOf getRead ≥ requestsLimit then
        (Response.tooManyRequests
          ("Rate limit exceeded. Maximum " ++ toString requestsLimit
            ++ " requests allowed per " ++ toString windowMinutes
            ++ " minutes."),
         { handlerCalls := 0, stored := none })
       else
        (handlerResult,
         { handlerCalls := 1,
           stored := some (rateKeyOf event, rateCountOf getRead + 1,
             windowMinutes * 60) })) ∧
    (getRead = .absent → 0 < requestsLimit →
      (rateLimiter requestsLimit windowMinutes none none event getRead
        .noThrow handlerResult).1 = handlerResult ∧
      (rateLimiter requestsLimit windowMinutes none none event getRead
        .noThrow handlerResult).2.handlerCalls = 1) := by
  constructor
  · rfl
  · intro habs hpos
    subst habs
    have hlt : ¬ (rateCountOf StoreRead.absent ≥ requestsLimit) := by
      simp [rateCountOf, CacheService.get]
      omega
    constructor <;>
      · simp only [rateLimiter, Option.getD_none]
        rw [if_neg hlt]

/-- Claim C5 witness: limit 2 reached → 429; fresh window → handler runs. -/
theorem rate_limiter_fixed_window_witness :
    (rateLimiter 2 1 none none ⟨some "1.2.3.4", "GET", "/fusion"⟩
      (StoreRead.item ⟨"rk", ⟨2⟩, 0, 0⟩) .noThrow okUnitResp).1.statusCode = 429 ∧
    (rateLimiter 2 1 none none ⟨some "1.2.3.4", "GET", "/fusion"⟩
      .absent .noThrow okUnitResp).1 = okUnitResp := by
  constructor
  · rw [(rate_limiter_fixed_window 2 1 ⟨some "1.2.3.4", "GET", "/fusion"⟩
      (StoreRead.item ⟨"rk", ⟨2⟩, 0, 0⟩) okUnitResp).1]
    decide
  · exact ((rate_limiter_fixed_window 2 1 ⟨some "1.2.3.4", "GET", "/fusion"⟩
      .absent okUnitResp).2 rfl (by decide)).1

/-- Claim C6: whatever the configuration, environment overrides, event and
counter-store state, an exception escaping into the limiter's catch —
at the counter read, or at the counter write (reached whenever the
count is below the effective limit) — still executes the wrapped
handler exactly once and returns its result unmodified. -/
theorem rate_limiter_fail_open {α : Type} (requestsLimit windowMinutes : Int)
    (envReq envWin : Option Int) (event : RateEvent)
    (getRead : StoreRead RateCounter) (handlerResult : Resp α) :
    rateLimiter requestsLimit windowMinutes envReq envWin event getRead
        .atGet handlerResult
      = (handlerResult, { handlerCalls := 1, stored := none }) ∧
    (rateCountOf getRead < envReq.getD requestsLimit →
      rateLimiter requestsLimit windowMinutes envReq envWin event getRead
          .atSet handlerResult
        = (handlerResult, { handlerCalls := 1, stored := none })) := by
  constructor
  · rfl
  · intro hlt
    simp only [rateLimiter]
    rw [if_neg (not_le.mpr hlt)]

/-- Claim C6 witness: a throwing counter store at both failure points. -/
theorem rate_limiter_fail_open_witness :
    rateLimiter 100 60 none none ⟨some "1.2.3.4", "GET", "/fusion"⟩
        (StoreRead.err "DynamoDB unavailable") .atGet okUnitResp
      = (okUnitResp, { handlerCalls := 1, stored := none }) ∧
    rateLimiter 100 60 none none ⟨some "1.2.3.4", "GET", "/fusion"⟩
        (StoreRead.err "DynamoDB unavailable") .atSet okUnitResp
      = (okUnitResp, { handlerCalls := 1, stored := none }) :=
  ⟨(rate_limiter_fail_open 100 60 none none ⟨some "1.2.3.4", "GET", "/fusion"⟩
      (StoreRead.err "DynamoDB unavailable") okUnitResp).1,
   (rate_limiter_fail_open 100 60 none none ⟨some "1.2.3.4", "GET", "/fusion"⟩
      (StoreRead.err "DynamoDB unavailable") okUnitResp).2 (by decide)⟩

/-- Claim C7: for live (non-simulated) weather — `source` equal to
`"OPENWEATHERMAP"` — the compatibility rating is exactly the
specification's table (priority order desert, frozen/cold, temperate,
tropical/jungle, first match wins, fair when no keyword matches),
applied to the weather's temperature, humidity and condition string,
with the code's `" match"` suffix appended to the table's rating. -/
theorem compat_live_follows_table (climate : String) (w : WeatherData)
    (hlive : w.source = "OPENWEATHERMAP") :
    calculatePlanetWeatherCompatibility climate (some w) =
      compatibilitySpecTable climate (w.temperature.getD 0)
        (w.humidity.getD 0) (w.conditions.getD "") ++ " match" := by
  have hne : ¬ (w.source = "mock") := by rw [hlive]; decide
  simp only [calculatePlanetWeatherCompatibility, compatibilitySpecTable,
    optToLowerComm, if_neg hne]
  split_ifs <;> rfl

/-- Claim C7 witness: a hot clear day on a desert-climate planet. -/
theorem compat_live_follows_table_witness :
    liveDesertWeather.source = "OPENWEATHERMAP" ∧
    calculatePlanetWeatherCompatibility "Desert" (some liveDesertWeather) =
      compatibilitySpecTable "Desert" (liveDesertWeather.temperature.getD 0)
        (liveDesertWeather.humidity.getD 0)
        (liveDesertWeather.conditions.getD "") ++ " match" ∧
    calculatePlanetWeatherCompatibility "Desert" (some liveDesertWeather) =
      "perfect match" :=
  ⟨rfl, compat_live_follows_table "Desert" liveDesertWeather rfl, by decide⟩

/-- Claim C8: on a cache miss where the character fetch succeeds and the
planet fetch fails, the result carries the sentinel homeworld with
name, climate and terrain `"Unknown"` and `fusion.dataQuality.planet`
equal to `"partial"`, and the pipeline still completes: HTTP 200
success with `cached=false`, and the result is written to the cache
with the 30-minute TTL. -/
theorem fusion_planet_failure_partial
    (event : FusionEvent) (env : FusionEnv) (ch : NormalizedCharacter)
    (chDur : Nat) (w : Option String) (e : ApiError) (pDur : Nat)
    (hmiss : CacheService.get env.cacheRead = none)
    (hch : env.characterResult = .ok ch chDur w)
    (hpl : env.planetResult = .fail e pDur) :
    (fusionMissData event ch chDur env).homeworld =
      { id := ch.homeworld.id, name := "Unknown", climate := "Unknown",
        terrain := "Unknown" } ∧
    (fusionMissData event ch chDur env).fusion.dataQuality.planet = "partial" ∧
    (baseHandler event env).1.statusCode = 200 ∧
    (baseHandler event env).1.body.dataOf = some (fusionMissData event ch chDur env) ∧
    (baseHandler event env).1.body.cachedOf = some false ∧
    (baseHandler event env).2.cacheWrites =
      [(CacheService.fusionKey (characterIdOf event),
        fusionMissData event ch chDur env, CACHE_CONFIG.TTL.FUSIONED_DATA)] := by
  have hb : baseHandler event env =
      (Response.success (fusionMissData event ch chDur env) false
        (chDur + env.planetResult.duration
          + (weatherCallOf env (planetDataOf ch env.planetResult).name).duration),
       { characterFetches := 1, planetFetches := 1, weatherFetches := 1,
         cacheWrites := [(CacheService.fusionKey (characterIdOf event),
           fusionMissData event ch chDur env, CACHE_CONFIG.TTL.FUSIONED_DATA)],
         historyAppends := if env.dbOk then 1 else 0 }) := by
    simp [baseHandler, hmiss, hch]
  refine ⟨?_, ?_, ?_, ?_, ?_, ?_⟩
  · simp [fusionMissData, planetDataOf, hpl]
  · simp [fusionMissData, planetDataOf, hpl, ApiCallResult.success]
  · rw [hb]; rfl
  · rw [hb]; rfl
  · rw [hb]; rfl
  · rw [hb]

/-- Claim C8 witness: a concrete failed planet fetch. -/
theorem fusion_planet_failure_partial_witness :
    (fusionMissData eventChar1 lukeCharacter 100 failPlanetEnv).homeworld =
      { id := lukeCharacter.homeworld.id, name := "Unknown",
        climate := "Unknown", terrain := "Unknown" } ∧
    (fusionMissData eventChar1 lukeCharacter 100 failPlanetEnv).fusion.dataQuality.planet = "partial" ∧
    (baseHandler eventChar1 failPlanetEnv).1.statusCode = 200 ∧
    (baseHandler eventChar1 failPlanetEnv).1.body.dataOf =
      some (fusionMissData eventChar1 lukeCharacter 100 failPlanetEnv) ∧
    (baseHandler eventChar1 failPlanetEnv).1.body.cachedOf = some false ∧
    (baseHandler eventChar1 failPlanetEnv).2.cacheWrites =
      [(CacheService.fusionKey (characterIdOf eventChar1),
        fusionMissData eventChar1 lukeCharacter 100 failPlanetEnv,
        CACHE_CONFIG.TTL.FUSIONED_DATA)] :=
  fusion_planet_failure_partial eventChar1 failPlanetEnv lukeCharacter 100 none
    ⟨"SWAPI_ERROR", "Request failed with status code 500"⟩ 40 rfl rfl rfl

/-- Claim C9 counterexample: the claim as stated is false on two concrete
inputs. `limit="2.5"` is not a positive integer yet the handler
truncates it to 2 and proceeds to the store query; and with
`startTime="5"`, `endTime="0"` both given and `5 > 0`, the range check
is skipped (JS `0` is falsy in `startTime && endTime && ...`) and the
store query runs. -/
theorem history_validation_counterexample :
    historyHandler { limit := some "2.5", cursor := none, source := none,
                     startTime := none, endTime := none } =
      HistoryOutcome.queried { limit := 2, lastEvaluatedKey := none,
                               source := "all", startTime := none,
                               endTime := none } ∧
    historyHandler { limit := none, cursor := none, source := none,
                     startTime := some "5", endTime := some "0" } =
      HistoryOutcome.queried { limit := 10, lastEvaluatedKey := none,
                               source := "all", startTime := some (some 5),
                               endTime := some (some 0) } ∧
    (5 : Int) > 0 := by
  exact ⟨by decide, by decide, by decide⟩

/-- Claim C9 (amended): the history handler rejects with a 400 validation
error, before any store query executes, exactly: a limit whose JS
`parseInt` value is NaN or, capped at 100, below 1 (so decimal strings
are truncated and accepted); a source outside fusion/custom/all; and a
pair with `startTime > endTime` when both bounds are present, numeric
and nonzero; in every other case the store query executes with the
parsed options. -/
theorem history_validation_characterization (q : HistoryQuery) :
    historyHandler q =
      if effLimit q < 1 then
        .rejected "Limit must be a positive integer"
      else if ¬ (effSource q ∈ (["fusion", "custom", "all"] : List String)) then
        .rejected "Source must be one of: fusion, custom, all"
      else if badTimeRange q then
        .rejected "Start time cannot be greater than end time"
      else .queried (queryOptionsOf q) := by
  have hs := effSource_ne_empty q
  unfold historyHandler badTimeRange
  by_cases h1 : effLimit q < 1
  · simp [h1]
  · simp only [h1, if_false]
    by_cases h2 : effSource q ∈ (["fusion", "custom", "all"] : List String)
    · simp only [h2, not_true, if_false, and_false, false_and]
      rcases hst : timeParamOf q.startTime with _ | st
      · simp [hst, h2]
      · rcases st with _ | s
        · simp [hst, h2]
        · rcases het : timeParamOf q.endTime with _ | et
          · simp [hst, het, h2]
          · rcases et with _ | e
            · simp [hst, het, h2]
            · simp only [hst, het, h2]
              by_cases h3 : s ≠ 0 ∧ e ≠ 0 ∧ s > e
              · simp [h3, hs]
              · have h3' : ¬ ((¬ s = 0 ∧ ¬ e = 0) ∧ e < s) :=
                  fun hc => h3 ⟨hc.1.1, hc.1.2, hc.2⟩
                simp [h3, hs, h3']
    · simp [h2, hs]

/-- Claim C10: a fusion request without a `character` query parameter (or
with an empty one) proceeds with character id `"1"` — the handler
behaves identically to an explicit `character=1` request under every
environment, rather than rejecting the request. -/
theorem fusion_default_character (requestId : String) (env : FusionEnv) :
    characterIdOf { character := none, requestId := requestId } = "1" ∧
    characterIdOf { character := some "", requestId := requestId } = "1" ∧
    baseHandler { character := none, requestId := requestId } env
      = baseHandler { character := some "1", requestId := requestId } env ∧
    baseHandler { character := some "", requestId := requestId } env
      = baseHandler { character := some "1", requestId := requestId } env := by
  refine ⟨rfl, rfl, rfl, rfl⟩
